import Mathlib

/-!
Shallow embedding of the Maxis trade-in scraper
(src/scripts/Malaysia/MY_RV_Source5.PY).

The scraper drives a browser through a multi-step wizard and records one
valuation row per (brand, model, condition) attempt.  Pure computations
(the currency regex, the condition-code map, device-type classification,
the capacity regex) are translated directly.  Browser state (the DOM of
the embedded form, the rendered result page, session liveness) is
modelled as explicit data passed to each stage; the per-attempt response
of the remote page is an oracle inside an environment record, and the
model/condition loops are structural recursions over it.
-/

/- ### Character and string helpers (Python string primitives over List Char) -/

/-- Membership of one character list as a contiguous prefix of another. -/
def isPrefixL : List Char → List Char → Bool
  | [], _ => true
  | _ :: _, [] => false
  | a :: as, b :: bs => a = b && isPrefixL as bs

/-- Membership of one character list as a contiguous run inside another;
Python `sub in s` on strings. -/
def isInfixL (sub : List Char) : List Char → Bool
  | [] => sub.isEmpty
  | b :: bs => isPrefixL sub (b :: bs) || isInfixL sub bs

/-- Python `sub in s` for strings. -/
def containsStr (s sub : String) : Bool := isInfixL sub.data s.data

/-- ASCII lower-casing of one character; Python `str.lower` acts this way on
the ASCII option texts and brand names the scraper compares. -/
def lowerChar (c : Char) : Char :=
  if 'A' ≤ c ∧ c ≤ 'Z' then Char.ofNat (c.toNat + 32) else c

/-- Python `s.lower()` restricted to ASCII letters. -/
def lowerStr (s : String) : String := String.mk (s.data.map lowerChar)

/-- Whitespace class of the Python regex `\s` (ASCII part), also used by
`str.strip`. -/
def isSpaceChar (c : Char) : Bool :=
  c = ' ' || c = '\t' || c = '\n' || c = '\r' || c = '\x0b' || c = '\x0c'

/-- Characters of a string with leading and trailing whitespace removed. -/
def trimL (cs : List Char) : List Char :=
  ((cs.dropWhile isSpaceChar).reverse.dropWhile isSpaceChar).reverse

/-- Python `s.strip()`. -/
def pyStrip (s : String) : String := String.mk (trimL s.data)

/- ### The currency regex of extract_price (MY_RV_Source5.PY lines 291-297) -/

/-- Attempt of the regex `RM\s*(\d+(?:\.\d+)?)` anchored at the head of the
character list; on success the captured group (digits with an optional
fractional part) is returned.  The quantifiers are greedy; for this pattern
greedy matching agrees with Python backtracking, because `\s` and `\d` accept
disjoint characters and the fractional branch starts with a literal dot. -/
def rmMatchAt (l : List Char) : Option String :=
  match l with
  | a :: b :: rest =>
    if a = 'R' ∧ b = 'M' then
      let rest2 := rest.dropWhile isSpaceChar
      let ds := rest2.takeWhile Char.isDigit
      if ds = [] then none
      else
        match rest2.drop ds.length with
        | c :: tl =>
          if c = '.' then
            let fs := tl.takeWhile Char.isDigit
            if fs = [] then some (String.mk ds) else some (String.mk (ds ++ '.' :: fs))
          else some (String.mk ds)
        | [] => some (String.mk ds)
    else none
  | _ => none

/-- Python `re.search`: the match at the leftmost starting position wins. -/
def rmSearch : List Char → Option String
  | [] => none
  | c :: cs =>
    match rmMatchAt (c :: cs) with
    | some s => some s
    | none => rmSearch cs

/-- Lines 292-297 of extract_price: if the text is non-empty and carries the
currency marker, search for the pattern and return the captured group,
otherwise return the empty string. -/
def parse_rm_price (price_text : String) : String :=
  if price_text ≠ "" ∧ containsStr price_text "RM" = true then
    match rmSearch price_text.data with
    | some v => v
    | none => ""
  else ""

/- ### The rendered result page and extract_price (lines 255-301) -/

/-- Observable state of the rendered result view: for each CSS selector the
text of the first visible element it resolves to (absent when the short wait
times out), plus the text the last-resort full-document JavaScript scan would
return (that scan returns the empty string when no element text matches
`RM\s*\d+`). -/
structure PricePage where
  selTexts : List (String × String)
  docScan : String
deriving Repr, DecidableEq

/-- Ordered list of CSS selectors tried by extract_price (lines 260-266). -/
def price_selectors : List String :=
  [".valuationAmount", "h1.mb-0.green1", "h1.green1", ".price", "h1"]

/-- Lines 255-301: take the first selector that yields text (stripped); if
none did, or the text is empty, fall back to the document scan; then parse
the currency pattern.  Every failure path yields the empty string. -/
def extract_price (page : PricePage) : String :=
  let selText := price_selectors.findSome? (fun sel => (List.lookup sel page.selTexts).map pyStrip)
  let price_text :=
    match selText with
    | some t => t
    | none => ""
  let price_text := if price_text = "" then page.docScan else price_text
  parse_rm_price price_text

/- ### DOM model for the condition form (lines 100-252) -/

/-- Observable state of the condition-form document, as seen by the three
JavaScript strategies: element ids resolvable by getElementById, the value
attributes of the radios sharing the group name CPTS, and the trimmed texts
of paragraph nodes from which the ancestor walk of method 3 reaches a radio
control. -/
structure DomState where
  elementIds : List String
  cptsValues : List String
  labelTexts : List String
deriving Repr, DecidableEq

/-- One dispatched DOM interaction, recorded for reasoning about what the
stages attempt. -/
inductive DomAction where
  | checkRadioById (id : String)
  | scanRadiosByName (gname : String) (value : String)
  | scanLabels (label : String)
  | setCheckbox (id : String) (checked : Bool)
deriving Repr, DecidableEq

/-- Lines 101-116, js_check_radio: the injected script returns true exactly
when getElementById resolves the id (the checked flag and change event are
side effects on the page). -/
def js_check_radio (dom : DomState) (element_id : String) : Bool :=
  dom.elementIds.contains element_id

/-- Lines 119-134, js_check_checkbox: same resolution rule; the boolean
argument only chooses the state written to the checkbox. -/
def js_check_checkbox (dom : DomState) (element_id : String) (_check : Bool) : Bool :=
  dom.elementIds.contains element_id

/-- Lines 141-145: the dictionary mapping a screen-condition name to the form
code; the source comment notes that CPTS03 is the unused Heavy Scratches
slot. -/
def condition_id_map (condition : String) : Option String :=
  if condition = "Flawless" then some "CPTS01"
  else if condition = "Good" then some "CPTS02"
  else if condition = "Damaged" then some "CPTS04"
  else none

/-- Lines 137-208, select_screen_condition: an unmapped condition fails at
once with no DOM interaction; otherwise the three strategies run in order
(direct id toggle, scan of the CPTS radio group by value, paragraph-label
scan), the first success short-circuiting the rest.  The result pairs the
reported boolean with the interactions dispatched. -/
def select_screen_condition (dom : DomState) (condition : String) : Bool × List DomAction :=
  match condition_id_map condition with
  | none => (false, [])
  | some element_id =>
    if js_check_radio dom element_id then
      (true, [DomAction.checkRadioById element_id])
    else if dom.cptsValues.contains element_id then
      (true, [DomAction.checkRadioById element_id,
              DomAction.scanRadiosByName "CPTS" element_id])
    else if dom.labelTexts.contains condition then
      (true, [DomAction.checkRadioById element_id,
              DomAction.scanRadiosByName "CPTS" element_id,
              DomAction.scanLabels condition])
    else
      (false, [DomAction.checkRadioById element_id,
               DomAction.scanRadiosByName "CPTS" element_id,
               DomAction.scanLabels condition])

/-- Ids of the defect checkboxes cleared by step 3 of fill_form (line 239). -/
def issue_checkboxes : List String := ["CBAT", "CTON", "CBRK", "CLIQ", "CMIS"]

/-- Outcome of fill_form, keeping the reported result of every sub-step next
to the boolean the function returns and the trace of dispatched
interactions. -/
structure FillResult where
  screenOk : Bool
  bodyChecked : Option Bool
  noneChecked : Option Bool
  success : Bool
  trace : List DomAction
deriving Repr, DecidableEq

/-- Lines 211-252, fill_form: step 1 selects the screen condition and a
failure there returns False at once.  Step 2 always force-selects the body
radio CPBP01; its boolean result is only printed, and the surrounding
try/except can not fire because js_check_radio catches internally, so the
function proceeds regardless.  Step 3 unchecks the five defect checkboxes
and checks CISS; its boolean result is likewise only printed.  The function
then returns True. -/
def fill_form (dom : DomState) (screen_condition : String) : FillResult :=
  let s := select_screen_condition dom screen_condition
  if s.1 = false then
    { screenOk := false, bodyChecked := none, noneChecked := none,
      success := false, trace := s.2 }
  else
    let body := js_check_radio dom "CPBP01"
    let nc := js_check_checkbox dom "CISS" true
    { screenOk := true, bodyChecked := some body, noneChecked := some nc,
      success := true,
      trace := s.2 ++ [DomAction.checkRadioById "CPBP01"]
        ++ issue_checkboxes.map (fun i => DomAction.setCheckbox i false)
        ++ [DomAction.setCheckbox "CISS" true] }

/- ### Record construction (lines 77-94 and 509-527) -/

/-- One row of the results table, with the columns of the DataFrame at lines
77-81.  The Updated on column holds the run date, threaded in as data since
the clock is ambient in the source. -/
structure Record where
  country : String
  deviceType : String
  brand : String
  model : String
  capacity : String
  color : String
  launchRRP : String
  condition : String
  valueType : String
  currency : String
  value : String
  source : String
  updatedOn : String
  updatedBy : String
  comments : String
deriving Repr, DecidableEq

/-- Line 512: a model containing iPhone or Galaxy is a Smartphone, every
other model is a Tablet. -/
def deviceTypeOf (model : String) : String :=
  if containsStr model "iPhone" || containsStr model "Galaxy" then "Smartphone" else "Tablet"

/-- Attempt of the capacity regex `(\d+\s*(?:GB|TB))` anchored at the head of
the character list. -/
def capacityMatchAt (cs : List Char) : Option (List Char) :=
  let ds := cs.takeWhile Char.isDigit
  if ds = [] then none
  else
    let rest := cs.drop ds.length
    let sp := rest.takeWhile isSpaceChar
    match rest.drop sp.length with
    | a :: b :: _ =>
      if (a = 'G' ∨ a = 'T') ∧ b = 'B' then some (ds ++ sp ++ [a, b]) else none
    | _ => none

/-- Python `re.search` for the capacity pattern: leftmost match wins. -/
def capacitySearch : List Char → Option (List Char)
  | [] => none
  | c :: cs =>
    match capacityMatchAt (c :: cs) with
    | some m => some m
    | none => capacitySearch cs

/-- Lines 521-523: capacity taken from the model name when the pattern
matches, with spaces removed from the match; empty otherwise. -/
def extractCapacity (model : String) : String :=
  match capacitySearch model.data with
  | some m => String.mk (m.filter (fun c => !(c = ' ')))
  | none => ""

/-- Lines 509-523: the record built from the defaults dictionary and the
per-unit update. -/
def mkRecord (today brand model condition price : String) : Record :=
  { country := "Malaysia"
    deviceType := deviceTypeOf model
    brand := brand
    model := model
    capacity := extractCapacity model
    color := ""
    launchRRP := ""
    condition := condition
    valueType := "Trade-In"
    currency := "MYR"
    value := price
    source := "MY_RV_Source5"
    updatedOn := today
    updatedBy := ""
    comments := "" }

/- ### Brand dropdown selection (lines 374-396) -/

/-- Lines 375-378: option texts shown by the brand dropdown, excluding the
placeholder and blank entries, each stripped. -/
def availableBrands (options : List String) : List String :=
  (options.filter (fun o => o ≠ "Select One" && pyStrip o ≠ "")).map pyStrip

/-- Line 385: case-insensitive substring containment in either direction
between the requested brand and an option text. -/
def brandMatchPred (brand o : String) : Bool :=
  containsStr (lowerStr o) (lowerStr brand) || containsStr (lowerStr brand) (lowerStr o)

/-- Lines 383-387: the first matching option text, if any. -/
def findBrandMatch (options : List String) (brand : String) : Option String :=
  (availableBrands options).find? (fun o => brandMatchPred brand o)

/-- Action the Selection Stage performs on the brand dropdown. -/
inductive BrandSelection where
  | byText (t : String)
  | byIndex (i : Nat)
deriving Repr, DecidableEq

/-- Lines 394 and 475: the positional fallback, index 1 for Apple and index 2
for any other brand. -/
def fallbackIndex (brand : String) : Nat := if brand = "Apple" then 1 else 2

/-- Lines 389-396: select the matched option by visible text, or fall back to
the fixed positional index. -/
def selectBrandAction (options : List String) (brand : String) : BrandSelection :=
  match findBrandMatch options brand with
  | some m => BrandSelection.byText m
  | none => BrandSelection.byIndex (fallbackIndex brand)

/- ### The per-condition attempt and the model/condition loops (lines 321-577) -/

/-- Response of the live page to one (brand, model, condition) attempt:
whether the iframe appeared and was entered (lines 439-452), whether the
brand/model selection and Next click ran without raising (lines 455-502),
the DOM the condition form presents, the rendered result page, whether the
submit control was found (line 307), and whether the browser still answers a
liveness probe after an exception (line 544). -/
structure Attempt where
  frameOk : Bool
  selectionOk : Bool
  dom : DomState
  page : PricePage
  submitOk : Bool
  aliveAfterError : Bool
deriving Repr, DecidableEq

/-- Lines 304-319, submit_form_and_get_price: a missing submit control is
caught and yields the empty string, otherwise the price is extracted from
the result page. -/
def submit_form_and_get_price (a : Attempt) : String :=
  if a.submitOk then extract_price a.page else ""

/-- Classified outcome of the body of the per-condition loop. -/
inductive StepResult where
  | noFrame
  | raised (alive : Bool)
  | filled (price : String)
  | formFalse
deriving Repr, DecidableEq

/-- Lines 429-553 reduced to the branch taken: iframe failure skips the
condition; an exception during selection is caught, with the liveness probe
deciding between skip and recovery; otherwise fill_form decides whether a
price is extracted and a record appended. -/
def attemptOutcome (a : Attempt) (condition : String) : StepResult :=
  if a.frameOk = false then StepResult.noFrame
  else if a.selectionOk = false then StepResult.raised a.aliveAfterError
  else if (fill_form a.dom condition).success then
    StepResult.filled (submit_form_and_get_price a)
  else StepResult.formFalse

/-- Environment of one run: the run date, whether the brand-level page entry
and model enumeration succeed (lines 330-422), the model list per brand, and
the per-attempt page response. -/
structure Env where
  today : String
  brandPhaseOk : String → Bool
  models : String → List String
  attempt : String → String → String → Attempt

/-- Mutable state of the main loop: the accumulated rows of the results
DataFrame and the number of browser sessions created so far beyond the
initial one (each recovery at lines 546-550 adds one). -/
structure LoopState where
  records : List Record
  sessions : Nat
deriving Repr, DecidableEq

/-- Body of the per-condition loop (lines 429-553).  The returned boolean is
the break flag: true exactly when the session was found dead, which recreates
it (one more session) and abandons the remaining conditions of the model. -/
def processCondition (env : Env) (brand model condition : String) (st : LoopState) :
    LoopState × Bool :=
  match attemptOutcome (env.attempt brand model condition) condition with
  | StepResult.noFrame => (st, false)
  | StepResult.raised alive =>
    if alive then (st, false)
    else ({ st with sessions := st.sessions + 1 }, true)
  | StepResult.filled price =>
    ({ st with records := st.records ++ [mkRecord env.today brand model condition price] },
     false)
  | StepResult.formFalse => (st, false)

/-- Line 324: the three screen conditions attempted for every model. -/
def screen_conditions : List String := ["Flawless", "Good", "Damaged"]

/-- The per-condition loop of lines 429-553 over a remaining condition list,
honouring the break at line 551. -/
def condLoop (env : Env) (brand model : String) : List String → LoopState → LoopState
  | [], st => st
  | c :: cs, st =>
    match processCondition env brand model c st with
    | (st', brk) => if brk then st' else condLoop env brand model cs st'

/-- The per-model loop of lines 425-553. -/
def processModels (env : Env) (brand : String) : List String → LoopState → LoopState
  | [], st => st
  | m :: ms, st => processModels env brand ms (condLoop env brand m screen_conditions st)

/-- Lines 413-415: optional cap on the models per brand for test runs. -/
def limitModels (n_scrape : Option Nat) (ms : List String) : List String :=
  match n_scrape with
  | some n => ms.take n
  | none => ms

/-- Lines 330-553 for one brand: a failed brand phase skips the brand,
otherwise the (possibly capped) models are processed. -/
def processBrand (env : Env) (n_scrape : Option Nat) (brand : String) (st : LoopState) :
    LoopState :=
  if env.brandPhaseOk brand then
    processModels env brand (limitModels n_scrape (env.models brand)) st
  else st

/-- Line 327: the fixed brand list. -/
def brands : List String := ["Apple", "Samsung"]

/-- Lines 321-577, scrape_trade_in_prices: run the brand loop and report
success as the results table being non-empty (line 577), together with the
final loop state. -/
def scrape_trade_in_prices (env : Env) (n_scrape : Option Nat) : Bool × LoopState :=
  let final := brands.foldl (fun st b => processBrand env n_scrape b st)
    { records := [], sessions := 0 }
  (!final.records.isEmpty, final)

/- ### Helper lemmas about the regex matcher -/

/-- Every character kept by takeWhile satisfies the predicate. -/
theorem takeWhile_all_sat (p : Char → Bool) : ∀ l : List Char, (l.takeWhile p).all p = true := by
  intro l
  induction l with
  | nil => rfl
  | cons a as ih =>
    simp only [List.takeWhile]
    cases h : p a with
    | false => rfl
    | true => simp [List.all_cons, h, ih]

/-- Any capture produced by an anchored match of the currency pattern is a
non-empty digit run with an optional dot-separated non-empty digit run. -/
theorem rmMatchAt_shape {l : List Char} {s : String} (h : rmMatchAt l = some s) :
    ∃ ds fs : List Char, ds ≠ [] ∧ ds.all Char.isDigit = true ∧
      (s = String.mk ds ∨
        (fs ≠ [] ∧ fs.all Char.isDigit = true ∧ s = String.mk (ds ++ '.' :: fs))) := by
  cases l with
  | nil => exact absurd h (by simp [rmMatchAt])
  | cons a t =>
    cases t with
    | nil => exact absurd h (by simp [rmMatchAt])
    | cons b rest =>
      simp only [rmMatchAt] at h
      generalize hr : rest.dropWhile isSpaceChar = r2 at h
      generalize hd : r2.takeWhile Char.isDigit = ds at h
      have hds : ds.all Char.isDigit = true := hd ▸ takeWhile_all_sat Char.isDigit r2
      split at h
      · split at h
        · exact absurd h (by simp)
        · rename_i hne
          split at h
          · rename_i c tl heq
            split at h
            · rename_i hdot
              generalize hf : tl.takeWhile Char.isDigit = fs at h
              have hfs : fs.all Char.isDigit = true := hf ▸ takeWhile_all_sat Char.isDigit tl
              split at h
              · exact ⟨ds, [], hne, hds, Or.inl (Option.some.inj h).symm⟩
              · rename_i hfne
                subst hdot
                exact ⟨ds, fs, hne, hds,
                  Or.inr ⟨hfne, hfs, (Option.some.inj h).symm⟩⟩
            · exact ⟨ds, [], hne, hds, Or.inl (Option.some.inj h).symm⟩
          · exact ⟨ds, [], hne, hds, Or.inl (Option.some.inj h).symm⟩
      · exact absurd h (by simp)

/-- The leftmost-search wrapper only returns captures of the anchored
matcher. -/
theorem rmSearch_shape : ∀ {l : List Char} {s : String}, rmSearch l = some s →
    ∃ ds fs : List Char, ds ≠ [] ∧ ds.all Char.isDigit = true ∧
      (s = String.mk ds ∨
        (fs ≠ [] ∧ fs.all Char.isDigit = true ∧ s = String.mk (ds ++ '.' :: fs))) := by
  intro l
  induction l with
  | nil => intro s h; exact absurd h (by simp [rmSearch])
  | cons c cs ih =>
    intro s h
    simp only [rmSearch] at h
    cases hm : rmMatchAt (c :: cs) with
    | some v =>
      rw [hm] at h
      exact (Option.some.inj h) ▸ rmMatchAt_shape hm
    | none =>
      rw [hm] at h
      exact ih h

/-- The parser of the currency pattern returns the empty string or a
captured numeric string. -/
theorem parse_rm_price_shape (t : String) :
    parse_rm_price t = "" ∨
    ∃ ds fs : List Char, ds ≠ [] ∧ ds.all Char.isDigit = true ∧
      (parse_rm_price t = String.mk ds ∨
        (fs ≠ [] ∧ fs.all Char.isDigit = true ∧
          parse_rm_price t = String.mk (ds ++ '.' :: fs))) := by
  unfold parse_rm_price
  split
  · cases hs : rmSearch t.data with
    | none => left; rfl
    | some v =>
      right
      exact rmSearch_shape hs
  · left; rfl

/- ### C2: behaviour of the currency-pattern parser on the three spec inputs -/

/-- C2 counterexample: on the input RM 1,234 the parser stops at the comma
and captures 1, not 1234 as the claim states. -/
theorem parse_rm_price_comma_claim_false : parse_rm_price "RM 1,234" ≠ "1234" := by decide

/-- C2 (amended): the parser captures the digit run after the currency
marker, so RM 1,234 yields 1 (the comma ends the run), RM1234.50 yields
1234.50, and any text without the RM marker yields the empty string. -/
theorem parse_rm_price_examples (t : String) (h : containsStr t "RM" = false) :
    parse_rm_price "RM 1,234" = "1" ∧
    parse_rm_price "RM1234.50" = "1234.50" ∧
    parse_rm_price t = "" := by
  refine ⟨by decide, by decide, ?_⟩
  have hnc : ¬(t ≠ "" ∧ containsStr t "RM" = true) := by simp [h]
  unfold parse_rm_price
  rw [if_neg hnc]

/-- Witness for the amended C2 theorem at a concrete marker-free input. -/
theorem parse_rm_price_examples_witness :
    containsStr "no currency marker" "RM" = false ∧
    (parse_rm_price "RM 1,234" = "1" ∧
     parse_rm_price "RM1234.50" = "1234.50" ∧
     parse_rm_price "no currency marker" = "") :=
  ⟨by decide, parse_rm_price_examples "no currency marker" (by decide)⟩

/- ### C5: extraction always returns a string, empty on every failure path -/

/-- C5: for every observable result-page state the extraction returns the
empty string or a captured numeric string (a non-empty digit run with an
optional fractional part); in particular no input state escapes with
anything but a string value. -/
theorem extract_price_total_empty_on_failure (page : PricePage) :
    extract_price page = "" ∨
    ∃ ds fs : List Char, ds ≠ [] ∧ ds.all Char.isDigit = true ∧
      (extract_price page = String.mk ds ∨
        (fs ≠ [] ∧ fs.all Char.isDigit = true ∧
          extract_price page = String.mk (ds ++ '.' :: fs))) := by
  unfold extract_price
  exact parse_rm_price_shape _

/- ### C4: the screen-condition mapping -/

/-- Empty form document: no resolvable ids, radios or labels. -/
def domEmpty : DomState := { elementIds := [], cptsValues := [], labelTexts := [] }

/-- C4: Flawless maps to CPTS01, Good to CPTS02, Damaged to CPTS04, the
unused code CPTS03 is never produced, and any other condition string makes
the stage fail with an empty interaction trace. -/
theorem screen_condition_mapping (dom : DomState) (c : String)
    (h1 : c ≠ "Flawless") (h2 : c ≠ "Good") (h3 : c ≠ "Damaged") :
    condition_id_map "Flawless" = some "CPTS01" ∧
    condition_id_map "Good" = some "CPTS02" ∧
    condition_id_map "Damaged" = some "CPTS04" ∧
    (∀ s : String, condition_id_map s ≠ some "CPTS03") ∧
    select_screen_condition dom c = (false, []) := by
  refine ⟨by decide, by decide, by decide, ?_, ?_⟩
  · intro s
    unfold condition_id_map
    split
    · decide
    split
    · decide
    split
    · decide
    · decide
  · unfold select_screen_condition condition_id_map
    rw [if_neg h1, if_neg h2, if_neg h3]

/-- Witness for the C4 theorem at the concrete unmapped condition Cracked. -/
theorem screen_condition_mapping_witness :
    ("Cracked" ≠ "Flawless" ∧ "Cracked" ≠ "Good" ∧ "Cracked" ≠ "Damaged") ∧
    (condition_id_map "Flawless" = some "CPTS01" ∧
     condition_id_map "Good" = some "CPTS02" ∧
     condition_id_map "Damaged" = some "CPTS04" ∧
     (∀ s : String, condition_id_map s ≠ some "CPTS03") ∧
     select_screen_condition domEmpty "Cracked" = (false, [])) :=
  ⟨⟨by decide, by decide, by decide⟩,
   screen_condition_mapping domEmpty "Cracked" (by decide) (by decide) (by decide)⟩

/- ### C3: what the reported result of fill_form depends on -/

/-- Form document where the screen-condition radio resolves but the body
radio CPBP01 and the checkboxes do not. -/
def domScreenOnly : DomState := { elementIds := ["CPTS01"], cptsValues := [], labelTexts := [] }

/-- C3 counterexample: on a document without the body radio the body
sub-step reports failure (its helper returns false), yet fill_form still
reports overall success, refuting that success requires all three sub-steps
to succeed. -/
theorem fill_form_ignores_body_result :
    (fill_form domScreenOnly "Flawless").success = true ∧
    (fill_form domScreenOnly "Flawless").bodyChecked = some false :=
  ⟨by decide, by decide⟩

/-- C3 (amended): fill_form reports success exactly when the
screen-condition sub-step succeeds; the reported results of the
body-condition and defect-checklist sub-steps cannot influence the outcome,
because their helpers swallow failures internally. -/
theorem fill_form_success_iff_screen (dom : DomState) (c : String) :
    (fill_form dom c).success = (select_screen_condition dom c).1 := by
  unfold fill_form
  cases h : (select_screen_condition dom c).1 with
  | false => simp [h]
  | true => simp [h]

/- ### C6: the body-condition sub-step is constant -/

/-- C6: whenever the stage proceeds past screen-condition selection it
force-selects the body radio CPBP01; the reported body result is a function
of the document alone, identical for every requested condition. -/
theorem body_step_constant (dom : DomState) (c : String)
    (h : (select_screen_condition dom c).1 = true) :
    (fill_form dom c).bodyChecked = some (js_check_radio dom "CPBP01") ∧
    DomAction.checkRadioById "CPBP01" ∈ (fill_form dom c).trace ∧
    (∀ c' : String, (select_screen_condition dom c').1 = true →
      (fill_form dom c').bodyChecked = (fill_form dom c).bodyChecked) := by
  have key : ∀ c'' : String, (select_screen_condition dom c'').1 = true →
      (fill_form dom c'').bodyChecked = some (js_check_radio dom "CPBP01") := by
    intro c'' hc
    unfold fill_form
    simp [hc]
  refine ⟨key c h, ?_, fun c' hc' => (key c' hc').trans (key c h).symm⟩
  unfold fill_form
  simp [h, List.mem_append]

/-- Form document with every control of the condition form resolvable. -/
def domFull : DomState :=
  { elementIds := ["CPTS01", "CPTS02", "CPTS04", "CPBP01", "CBAT", "CTON",
                   "CBRK", "CLIQ", "CMIS", "CISS"],
    cptsValues := [], labelTexts := [] }

/-- Witness for the C6 theorem on a fully resolvable document at condition
Good. -/
theorem body_step_constant_witness :
    (select_screen_condition domFull "Good").1 = true ∧
    ((fill_form domFull "Good").bodyChecked = some (js_check_radio domFull "CPBP01") ∧
     DomAction.checkRadioById "CPBP01" ∈ (fill_form domFull "Good").trace ∧
     (∀ c' : String, (select_screen_condition domFull c').1 = true →
       (fill_form domFull c').bodyChecked = (fill_form domFull "Good").bodyChecked)) :=
  ⟨by decide, body_step_constant domFull "Good" (by decide)⟩

/- ### C7: positional fallback of brand selection -/

/-- C7: when no dropdown option matches the requested brand by
case-insensitive substring containment in either direction, the stage falls
back to selecting by position, index 1 for Apple and index 2 for any other
brand. -/
theorem brand_positional_fallback (options : List String) (brand : String)
    (h : ∀ o ∈ availableBrands options, brandMatchPred brand o = false) :
    selectBrandAction options brand =
      BrandSelection.byIndex (if brand = "Apple" then 1 else 2) := by
  have hn : (availableBrands options).find? (fun o => brandMatchPred brand o) = none := by
    rw [List.find?_eq_none]
    intro o ho
    simp [h o ho]
  unfold selectBrandAction findBrandMatch fallbackIndex
  rw [hn]

/-- Witness for the C7 theorem on a dropdown without a matching option. -/
theorem brand_positional_fallback_witness :
    (∀ o ∈ availableBrands ["Select One", "Xiaomi", "Oppo"],
      brandMatchPred "Apple" o = false) ∧
    selectBrandAction ["Select One", "Xiaomi", "Oppo"] "Apple" =
      BrandSelection.byIndex (if "Apple" = "Apple" then 1 else 2) :=
  ⟨by decide,
   brand_positional_fallback ["Select One", "Xiaomi", "Oppo"] "Apple" (by decide)⟩

/- ### C10: device-type classification of recorded rows -/

/-- C10: a recorded row carries Device Type Smartphone exactly when the
model name contains iPhone or Galaxy, and Tablet exactly otherwise. -/
theorem device_type_classification (today b m c p : String) :
    ((mkRecord today b m c p).deviceType = "Smartphone" ↔
      (containsStr m "iPhone" = true ∨ containsStr m "Galaxy" = true)) ∧
    ((mkRecord today b m c p).deviceType = "Tablet" ↔
      ¬(containsStr m "iPhone" = true ∨ containsStr m "Galaxy" = true)) := by
  have hne : ("Smartphone" : String) ≠ "Tablet" := by decide
  show (deviceTypeOf m = "Smartphone" ↔ _) ∧ (deviceTypeOf m = "Tablet" ↔ _)
  unfold deviceTypeOf
  cases h1 : containsStr m "iPhone" with
  | true => simp [h1, hne]
  | false =>
    cases h2 : containsStr m "Galaxy" with
    | true => simp [h1, h2, hne]
    | false => simp [h1, h2, hne.symm]

/- ### C1: records produced per attempted work unit -/

/-- Result page with no selector matches and no currency text anywhere. -/
def pageEmpty : PricePage := { selTexts := [], docScan := "" }

/-- Attempt where navigation and selection succeed but the condition form
presents no resolvable control, so fill_form reports failure. -/
def attemptFormFail : Attempt :=
  { frameOk := true, selectionOk := true, dom := domEmpty, page := pageEmpty,
    submitOk := true, aliveAfterError := true }

/-- Environment whose every attempt runs into the unfillable form. -/
def envFormFail : Env :=
  { today := "2026-10-11", brandPhaseOk := fun _ => true,
    models := fun _ => ["iPad Pro 11 128GB"], attempt := fun _ _ _ => attemptFormFail }

/-- C1 counterexample: an attempted work unit whose condition form cannot be
filled appends no record at all, refuting that every attempted work unit
yields exactly one record. -/
theorem work_unit_zero_records_possible :
    ¬ (∀ (env : Env) (b m c : String) (st : LoopState),
        ((processCondition env b m c st).1).records.length = st.records.length + 1) := by
  intro hall
  exact absurd
    (hall envFormFail "Apple" "iPad Pro 11 128GB" "Flawless" { records := [], sessions := 0 })
    (by decide)

/-- C1 (amended): an attempted work unit appends at most one record: exactly
one, built by mkRecord with the extracted (possibly empty) price, when the
condition form was filled, and zero when frame entry, selection or form
filling failed or the session died. -/
theorem work_unit_at_most_one_record (env : Env) (b m c : String) (st : LoopState) :
    (((processCondition env b m c st).1).records = st.records ∧
      ∀ p : String, attemptOutcome (env.attempt b m c) c ≠ StepResult.filled p) ∨
    (∃ p : String, attemptOutcome (env.attempt b m c) c = StepResult.filled p ∧
      ((processCondition env b m c st).1).records =
        st.records ++ [mkRecord env.today b m c p]) := by
  unfold processCondition
  cases ho : attemptOutcome (env.attempt b m c) c with
  | noFrame => exact Or.inl ⟨rfl, by simp⟩
  | raised alive =>
    cases alive with
    | true => exact Or.inl ⟨rfl, by simp⟩
    | false => exact Or.inl ⟨rfl, by simp⟩
  | filled price => exact Or.inr ⟨price, rfl, rfl⟩
  | formFalse => exact Or.inl ⟨rfl, by simp⟩

/- ### C8: recovery from a dead session -/

/-- C8: when the session dies at some condition of the current model, the
loop state gains exactly one recreated session, every record accumulated so
far is preserved unchanged, the remaining conditions of the model are
abandoned, and the model loop continues with the next model. -/
theorem session_death_single_recovery (env : Env) (b m : String) (c : String)
    (cs : List String) (ms : List String) (st : LoopState)
    (hdead : attemptOutcome (env.attempt b m c) c = StepResult.raised false) :
    condLoop env b m (c :: cs) st =
      { records := st.records, sessions := st.sessions + 1 } ∧
    processModels env b (m :: ms) st =
      processModels env b ms (condLoop env b m screen_conditions st) := by
  constructor
  · simp only [condLoop, processCondition]
    rw [hdead]
    rfl
  · rfl

/-- Attempt during which the selection raises and the liveness probe finds
the browser dead. -/
def attemptDead : Attempt :=
  { frameOk := true, selectionOk := false, dom := domEmpty, page := pageEmpty,
    submitOk := true, aliveAfterError := false }

/-- Environment whose every attempt kills the session. -/
def envDead : Env :=
  { today := "2026-10-11", brandPhaseOk := fun _ => true,
    models := fun _ => ["iPhone 13 128GB", "iPhone 14 256GB"],
    attempt := fun _ _ _ => attemptDead }

/-- Loop state holding one completed record before the crash. -/
def stWithOne : LoopState :=
  { records := [mkRecord "2026-10-11" "Apple" "iPhone 12 64GB" "Flawless" "850"],
    sessions := 0 }

/-- Witness for the C8 theorem: a concrete crash at condition Good of the
first model, with one previously completed record preserved. -/
theorem session_death_single_recovery_witness :
    attemptOutcome (envDead.attempt "Apple" "iPhone 13 128GB" "Good") "Good" =
      StepResult.raised false ∧
    (condLoop envDead "Apple" "iPhone 13 128GB" ["Good", "Damaged"] stWithOne =
      { records := stWithOne.records, sessions := stWithOne.sessions + 1 } ∧
     processModels envDead "Apple" ["iPhone 13 128GB", "iPhone 14 256GB"] stWithOne =
      processModels envDead "Apple" ["iPhone 14 256GB"]
        (condLoop envDead "Apple" "iPhone 13 128GB" screen_conditions stWithOne)) :=
  ⟨by decide,
   session_death_single_recovery envDead "Apple" "iPhone 13 128GB" "Good"
     ["Damaged"] ["iPhone 14 256GB"] stWithOne (by decide)⟩

/- ### C9: the boolean result of the whole run -/

/-- C9: the run reports true exactly when the accumulated result set is
non-empty and false exactly when it is empty, independent of how many
individual work units failed along the way. -/
theorem run_success_iff_nonempty (env : Env) (n_scrape : Option Nat) :
    ((scrape_trade_in_prices env n_scrape).1 = true ↔
      (scrape_trade_in_prices env n_scrape).2.records ≠ []) ∧
    ((scrape_trade_in_prices env n_scrape).1 = false ↔
      (scrape_trade_in_prices env n_scrape).2.records = []) := by
  have base : ∀ l : List Record,
      ((!l.isEmpty) = true ↔ l ≠ []) ∧ ((!l.isEmpty) = false ↔ l = []) := by
    intro l
    cases l <;> simp
  exact base _
